import Mathlib

/-!
# Verification of the tcds-triage token/session lifecycle manager

Shallow embedding, in Lean 4, of the operations of the tcds-triage
repository that the specification's claims are about:

* `server/scripts/token_service.py` — credential store (`tokens` dict),
  `get_token`, `refresh_token`, `detect_2fa_challenge`,
  `complete_2fa_session`, `proactive_refresh_daemon`;
* `server/mci-checker/app.py` — `extract_payment_data` (payment-status
  keyword ladder and cancellation override);
* `services/mci-scraper/app/services/browser.py` — `BrowserPool.release`;
* `services/mci-scraper/app/services/scraper.py` — `_parse_currency`;
* `services/mci-scraper/app/routes/check.py` — `_parse_date`.

Python strings are modelled as Lean `String`, Python `float(...)` applied to
decimal literals as exact rationals (`ℚ`; no float arithmetic is performed by
the modelled code beyond parsing, and `inf`/`nan` acceptance is tracked by a
separate Boolean), millisecond timestamps as `ℤ`, and fallible calls as
`Option`/`Except`.  Concurrency between the HTTP-handler thread and the
proactive-refresh daemon thread is modelled as an explicit interleaving of
atomic steps, where exactly the operations performed under `token_lock` in
the source are atomic.
-/

namespace TcdsTriage

/-! ## Python string primitives

`pyLower` models `str.lower()` (ASCII; every keyword and attribute value the
modelled code compares is ASCII).  `pyIn needle hay` models the Python
expression `needle in hay` on strings (substring containment, with the empty
needle contained in everything). -/

def pyLower (s : String) : String :=
  String.mk (s.toList.map Char.toLower)

/-- `listLeads n h` : the list `n` is an initial segment of `h`. -/
def listLeads : List Char → List Char → Bool
  | [], _ => true
  | _ :: _, [] => false
  | a :: as, b :: bs => a == b && listLeads as bs

def pyInAux (n : List Char) : List Char → Bool
  | [] => n.isEmpty
  | c :: cs => listLeads n (c :: cs) || pyInAux n cs

def pyIn (needle hay : String) : Bool :=
  pyInAux needle.toList hay.toList

/-! ## Python `float(...)` on strings

Models CPython's `float(str)`: surrounding whitespace is ignored, an optional
sign is followed by `digits [. digits] | . digits` with an optional exponent
part, and underscores are permitted only between two digits.  The numeric
value is represented exactly as a rational.  The special forms
`inf`/`infinity`/`nan`, whose values are not rationals, are recognised by
`pyFloatSpecial`; `pyFloatParses` tells whether `float(...)` succeeds at all
(i.e. does not raise `ValueError`). -/

def isPyWs (c : Char) : Bool :=
  c == ' ' || c == '\t' || c == '\n' || c == '\r' || c == '\x0b' || c == '\x0c'

def trimWs (cs : List Char) : List Char :=
  ((cs.dropWhile isPyWs).reverse.dropWhile isPyWs).reverse

/-- Strip one optional leading sign; returns (isNegative, rest). -/
def stripSign : List Char → Bool × List Char
  | '-' :: rest => (true, rest)
  | '+' :: rest => (false, rest)
  | cs => (false, cs)

/-- Every underscore must sit between two digits (CPython's rule for
numeric-literal underscores accepted by `float`). -/
def underscoresOk (cs : List Char) : Bool :=
  (List.range cs.length).all fun i =>
    cs.getD i ' ' != '_' ||
      (decide (1 ≤ i) && (cs.getD (i - 1) ' ').isDigit && (cs.getD (i + 1) ' ').isDigit)

def digitsVal (cs : List Char) : ℕ :=
  cs.foldl (fun acc c => 10 * acc + (c.toNat - 48)) 0

/-- Parse an optional exponent suffix onto an already-parsed mantissa,
carried as an exact numerator/denominator pair of naturals. -/
def parseExpPart (num den : ℕ) : List Char → Option (ℕ × ℕ)
  | [] => some (num, den)
  | c :: rest =>
    if c == 'e' || c == 'E' then
      let (neg, rest1) := stripSign rest
      let ds := rest1.takeWhile Char.isDigit
      let rest2 := rest1.dropWhile Char.isDigit
      if ds.isEmpty || !rest2.isEmpty then none
      else if neg then some (num, den * 10 ^ digitsVal ds)
      else some (num * 10 ^ digitsVal ds, den)
    else none

/-- Parse an unsigned float literal body: `digits [. digits]` or `. digits`,
with an optional exponent.  Returns the exact value as numerator/denominator. -/
def parseUnsignedFloat (cs : List Char) : Option (ℕ × ℕ) :=
  let ip := cs.takeWhile Char.isDigit
  let rest := cs.dropWhile Char.isDigit
  match rest with
  | '.' :: rest2 =>
    let fp := rest2.takeWhile Char.isDigit
    let rest3 := rest2.dropWhile Char.isDigit
    if ip.isEmpty && fp.isEmpty then none
    else parseExpPart (digitsVal ip * 10 ^ fp.length + digitsVal fp) (10 ^ fp.length) rest3
  | _ =>
    if ip.isEmpty then none
    else parseExpPart (digitsVal ip) 1 rest

/-- `float(s)` as an exact rational, `none` when `float` would raise
`ValueError` (and also on `inf`/`nan`, see `pyFloatSpecial`; exponent
overflow to infinity, an `OverflowError` in CPython, is not modelled —
the value is kept exact). -/
def pyFloat (s : String) : Option ℚ :=
  let t := trimWs s.toList
  let (neg, body) := stripSign t
  if underscoresOk body then
    match parseUnsignedFloat (body.filter (· != '_')) with
    | some (n, d) => some (if neg then -mkRat n d else mkRat n d)
    | none => none
  else none

/-- The special non-rational forms `float` accepts: `inf`, `infinity`, `nan`
(case-insensitively, after an optional sign). -/
def pyFloatSpecial (s : String) : Bool :=
  let t := trimWs s.toList
  let (_, body) := stripSign t
  let b := String.mk (body.map Char.toLower)
  b == "inf" || b == "infinity" || b == "nan"

/-- Whether `float(s)` succeeds (does not raise `ValueError`). -/
def pyFloatParses (s : String) : Bool :=
  (pyFloat s).isSome || pyFloatSpecial s

/-! ## `MCIScraperService._parse_currency`
(`services/mci-scraper/app/services/scraper.py`, lines 390–397)

```python
def _parse_currency(self, value: str) -> float:
    try:
        cleaned = value.replace(",", "").replace("$", "")
        return float(cleaned)
    except (ValueError, AttributeError):
        return 0.0
```
-/

/-- `value.replace(",", "").replace("$", "")` — only commas and dollar signs
are removed. -/
def stripCommasDollars (s : String) : String :=
  String.mk (s.toList.filter fun c => c != ',' && c != '$')

def parseCurrency (value : String) : ℚ :=
  match pyFloat (stripCommasDollars value) with
  | some q => q
  | none => 0

/-- Spec-side normalization, written from the spec's words for comparison
with the code (`parseCurrency`): "Currency strings are normalized by
stripping all non-digit/non-decimal-point characters before float
parsing." -/
def specStripNonDigitDot (s : String) : String :=
  String.mk (s.toList.filter fun c => c.isDigit || c == '.')

/-- The normalize-then-parse function the spec describes, for comparison. -/
def specParseCurrency (value : String) : ℚ :=
  match pyFloat (specStripNonDigitDot value) with
  | some q => q
  | none => 0

/-! ## `_parse_date`
(`services/mci-scraper/app/routes/check.py`, lines 101–110)

```python
def _parse_date(date_str: str | None):
    if not date_str:
        return None
    try:
        from datetime import datetime
        return datetime.strptime(date_str, "%m/%d/%Y").date()
    except ValueError:
        return None
```

CPython's `strptime` compiles `"%m/%d/%Y"` to the regular expression
`(1[0-2]|0[1-9]|[1-9]) / (3[01]|[12]\d|0[1-9]|[1-9]) / (\d\d\d\d)` and
requires it to consume the whole input; so the month and day may be one or
two digits, the year is exactly four digits, and the `datetime` constructor
then rejects out-of-range calendar dates (e.g. February 31) with
`ValueError`.  Since `/` is not a digit, the alternations are
unambiguous, and the grammar is equivalent to splitting the input at every
`/` into exactly three all-digit groups with the lengths and ranges below. -/

structure PyDate where
  year : ℕ
  month : ℕ
  day : ℕ
  deriving DecidableEq, Repr

/-- Split a character list at every `'/'` (every separator splits, like
`str.split("/")`). -/
def splitSlash : List Char → List (List Char)
  | [] => [[]]
  | '/' :: rest => [] :: splitSlash rest
  | c :: rest =>
    match splitSlash rest with
    | [] => [[c]]
    | g :: gs => (c :: g) :: gs

/-- The `%m` alternation `1[0-2]|0[1-9]|[1-9]`: one or two digits, value 1–12. -/
def validMonthStr (cs : List Char) : Bool :=
  cs.all Char.isDigit && decide (1 ≤ cs.length) && decide (cs.length ≤ 2) &&
    decide (1 ≤ digitsVal cs) && decide (digitsVal cs ≤ 12)

/-- The `%d` alternation `3[01]|[12]\d|0[1-9]|[1-9]`: one or two digits, value 1–31. -/
def validDayStr (cs : List Char) : Bool :=
  cs.all Char.isDigit && decide (1 ≤ cs.length) && decide (cs.length ≤ 2) &&
    decide (1 ≤ digitsVal cs) && decide (digitsVal cs ≤ 31)

/-- The `%Y` pattern `\d\d\d\d`: exactly four digits. -/
def validYearStr (cs : List Char) : Bool :=
  cs.all Char.isDigit && decide (cs.length = 4)

def isLeapYear (y : ℕ) : Bool :=
  (decide (y % 4 = 0) && decide (y % 100 ≠ 0)) || decide (y % 400 = 0)

def daysInMonth (y m : ℕ) : ℕ :=
  if m = 2 then (if isLeapYear y then 29 else 28)
  else if m = 4 || m = 6 || m = 9 || m = 11 then 30
  else 31

/-- `datetime.strptime(s, "%m/%d/%Y").date()`, with `ValueError` as `none`
(this includes `datetime.MINYEAR = 1`, so year `0000` is rejected). -/
def pyStrptimeMDY (s : String) : Option PyDate :=
  match splitSlash s.toList with
  | [ms, ds, ys] =>
    if validMonthStr ms && validDayStr ds && validYearStr ys then
      let y := digitsVal ys
      let m := digitsVal ms
      let d := digitsVal ds
      if decide (1 ≤ y) && decide (d ≤ daysInMonth y m) then some ⟨y, m, d⟩ else none
    else none
  | _ => none

/-- `_parse_date` from `routes/check.py`: `None` and the empty string are
falsy, anything unparsable yields `None` via the `except ValueError`. -/
def parseDateField (dateStr : Option String) : Option PyDate :=
  match dateStr with
  | none => none
  | some s => if s.isEmpty then none else pyStrptimeMDY s

/-- Spec-side form predicate, written from the spec's words for comparison
with the code (`parseDateField`): a string "in `MM/DD/YYYY` form" — two
digits, a slash, two digits, a slash, four digits. -/
def specIsMMDDYYYY (s : String) : Bool :=
  match s.toList with
  | [m1, m2, s1, d1, d2, s2, y1, y2, y3, y4] =>
    m1.isDigit && m2.isDigit && s1 == '/' && d1.isDigit && d2.isDigit &&
      s2 == '/' && y1.isDigit && y2.isDigit && y3.isDigit && y4.isDigit
  | _ => false

/-! ## `detect_2fa_challenge`
(`server/scripts/token_service.py`, lines 213–285)

The page is abstracted to what the detector inspects: `sel` is
`page.query_selector` (the first element matching a selector, if any),
`digitInputs` is `page.query_selector_all('input[maxlength="1"]')`, and
`bodyText` is `page.inner_text("body")` (the empty string when that raises,
matching `page_lower = ""` in the source).  Each element carries its
visibility and its `type`/`name` attributes (`None` when absent). -/

structure CodeInput where
  visible : Bool
  inputType : Option String
  inputName : Option String

structure LoginPage where
  sel : String → Option CodeInput
  digitInputs : List CodeInput
  bodyText : String

/-- The `twofa_selectors` list, lines 224–241. -/
def twofaSelectors : List String :=
  ["input[name=\"code\"]", "input[name=\"otp\"]", "input[name=\"totp\"]",
   "input[name=\"2fa\"]", "input[name=\"mfaCode\"]", "input[name=\"mfa_code\"]",
   "input[name=\"verificationCode\"]", "input[name=\"verification_code\"]",
   "input[name=\"twoFactorCode\"]",
   "input[placeholder*=\"code\" i]", "input[placeholder*=\"verification\" i]",
   "input[placeholder*=\"digit\" i]",
   "input[aria-label*=\"code\" i]", "input[aria-label*=\"verification\" i]",
   "input[aria-label*=\"digit\" i]",
   "input[type=\"tel\"][maxlength=\"6\"]", "input[type=\"tel\"][maxlength=\"1\"]",
   "input[type=\"number\"][maxlength=\"1\"]",
   "input[autocomplete=\"one-time-code\"]",
   "input[inputmode=\"numeric\"][maxlength=\"6\"]",
   "input[inputmode=\"numeric\"][maxlength=\"1\"]",
   "input.otp-input", "input.code-input", "input.verification-input",
   "input.digit-input",
   "[data-testid*=\"otp\"]", "[data-testid*=\"code\"]", "[data-testid*=\"2fa\"]"]

/-- The `twofa_keywords` list, lines 270–277 (all already lower-case). -/
def twofaKeywords : List String :=
  ["verification code", "two-factor", "2fa", "two factor",
   "enter code", "security code", "authentication code",
   "one-time password", "one-time code", "mfa", "multi-factor",
   "sent to your email", "sent to your phone", "sent a code",
   "6-digit", "6 digit", "enter the code", "verify your identity",
   "additional verification", "confirm it's you", "we need to verify"]

/-- `input_type not in ["email", "password"]` (an absent attribute passes). -/
def typeNotEmailPassword (t : Option String) : Bool :=
  !(t == some "email") && !(t == some "password")

/-- `input_name = ... or ""` then
`"email" not in input_name.lower() and "password" not in input_name.lower()`. -/
def nameNotEmailPassword (n : Option String) : Bool :=
  let s := pyLower (n.getD "")
  !(pyIn "email" s) && !(pyIn "password" s)

/-- One iteration of the selector loop (lines 243–253): an element matching
the selector that is visible and not identified as email/password by its
type or name. -/
def selectorHit (page : LoginPage) (s : String) : Bool :=
  match page.sel s with
  | some el => el.visible && typeNotEmailPassword el.inputType && nameNotEmailPassword el.inputName
  | none => false

/-- The count of visible `input[maxlength="1"]` boxes whose type is not
email/password (lines 256–266; the name attribute is not consulted here). -/
def visibleDigitCount (page : LoginPage) : ℕ :=
  (page.digitInputs.filter fun i => i.visible && typeNotEmailPassword i.inputType).length

/-- `detect_2fa_challenge`: any qualifying selector hit, or at least four
qualifying digit boxes, or any curated keyword in the lower-cased body
text. -/
def detect2faChallenge (page : LoginPage) : Bool :=
  twofaSelectors.any (selectorHit page) ||
    decide (4 ≤ visibleDigitCount page) ||
    twofaKeywords.any fun k => pyIn k (pyLower page.bodyText)

/-! ## `extract_payment_data` — payment-status classification
(`server/mci-checker/app.py`, lines 542–654)

The rendered results page is abstracted to its body text plus the optional
inner text of each field element the function queries (`None` when
`query_selector` finds no element).  The keyword ladder (lines 577–584) runs
first; then a single `try` block extracts the fields in source order and
sets `payment_status = "lapsed"` when a cancellation element is present
(lines 626–630).  The only operation in that block that can raise on pure
page data is `float(...)` on the amount text (line 604); when it raises, the
`except` at line 636 catches and every extraction after it — including the
cancellation override — is skipped. -/

structure MciPage where
  bodyText : String
  paidThroughEl : Option String
  nextDueEl : Option String
  amountDueEl : Option String
  policyNumberEl : Option String
  carrierEl : Option String
  effectiveEl : Option String
  expirationEl : Option String
  cancellationEl : Option String
  cancelReasonEl : Option String

structure PaymentCheckResult where
  paymentStatus : String
  paidThrough : Option String
  nextDue : Option String
  amountDue : Option ℚ
  policyNumber : Option String
  carrier : Option String
  effective : Option String
  expiration : Option String
  cancellation : Option String
  cancelReason : Option String
  deriving Repr

/-- The keyword ladder of lines 577–584 over the lower-cased page text. -/
def ladderStatus (pageText : String) : String :=
  let pl := pyLower pageText
  if pyIn "current" pl && pyIn "status" pl then "current"
  else if pyIn "past due" pl || pyIn "late" pl then "late"
  else if pyIn "grace period" pl then "grace_period"
  else if pyIn "lapsed" pl || pyIn "cancelled" pl || pyIn "canceled" pl then "lapsed"
  else "unknown"

/-- `amount_text.replace("$", "").replace(",", "").strip()` (the surrounding
strip is subsumed by `float`'s own whitespace handling in `pyFloat`). -/
def cleanAmount (s : String) : String :=
  String.mk (s.toList.filter fun c => c != '$' && c != ',')

def extract_payment_data (page : MciPage) : PaymentCheckResult :=
  let status0 := ladderStatus page.bodyText
  -- `float(...)` on the amount text: `some amt` when no exception is raised
  -- (`amt = none` for the non-rational `inf`/`nan` values), `none` when
  -- `ValueError` aborts the rest of the `try` block.
  let amountParse : Option (Option ℚ) :=
    match page.amountDueEl with
    | none => some none
    | some t => if pyFloatParses (cleanAmount t) then some (pyFloat (cleanAmount t)) else none
  match amountParse with
  | none =>
    { paymentStatus := status0
      paidThrough := page.paidThroughEl
      nextDue := page.nextDueEl
      amountDue := none
      policyNumber := none
      carrier := none
      effective := none
      expiration := none
      cancellation := none
      cancelReason := none }
  | some amt =>
    { paymentStatus := if page.cancellationEl.isSome then "lapsed" else status0
      paidThrough := page.paidThroughEl
      nextDue := page.nextDueEl
      amountDue := amt
      policyNumber := page.policyNumberEl
      carrier := page.carrierEl
      effective := page.effectiveEl
      expiration := page.expirationEl
      cancellation := page.cancellationEl
      cancelReason := page.cancelReasonEl }

/-! ## The credential store
(`server/scripts/token_service.py`, lines 62–80)

One entry of the `tokens` dict.  `expiresAt` is a millisecond timestamp
(`ℤ`), initialised to `0`; `token` is `None` or a string. -/

structure TokenData where
  token : Option String
  expiresAt : ℤ
  lastError : Option String
  lastRefresh : Option String
  retryCount : ℕ
  deriving DecidableEq, Repr

/-- `REFRESH_BUFFER_SECONDS = 600`. -/
def REFRESH_BUFFER_SECONDS : ℕ := 600

/-- `buffer_ms = REFRESH_BUFFER_SECONDS * 1000`. -/
def bufferMs : ℤ := (REFRESH_BUFFER_SECONDS : ℤ) * 1000

/-- Python truthiness of `token_data["token"]`: `None` and `""` are falsy. -/
def pyTruthyStr : Option String → Bool
  | none => false
  | some s => !s.isEmpty

/-- The initial store entry: `{"token": None, "expiresAt": 0, ...}`. -/
def initialTokenData : TokenData :=
  { token := none, expiresAt := 0, lastError := none, lastRefresh := none, retryCount := 0 }

inductive Provider where
  | mmi
  | rpr
  deriving DecidableEq, Repr

/-! ## `refresh_token` — retry with backoff
(`server/scripts/token_service.py`, lines 1012–1072)

The session automator (`extract_mmi_token` / `extract_rpr_token`) is a
parameter: `auto n` is the outcome of the call made on attempt index `n`
(`range(len(delays))`, so `n ∈ {0, 1, 2}`).  The run is summarised by the
observable event trace (attempt starts, `time.sleep` calls, the alert
email), the final store entry, and the returned value. -/

inductive AttemptOutcome where
  | ok (token : String) (expiresAt : ℤ)
  | requires2fa
  | err (msg : String)
  | exn (msg : String)

inductive RefreshEv where
  | attemptEv (n : ℕ)
  | sleepEv (secs : ℕ)
  | alertEv
  deriving DecidableEq, Repr

inductive RefreshSummary where
  | ok (token : String) (expiresAt : ℤ)
  | twofaPending
  | allFailed (lastError : Option String)
  deriving DecidableEq, Repr

/-- `delays = [5, 15, 45]  # seconds between retries`. -/
def delays : List ℕ := [5, 15, 45]

/-- The retry loop body.  `attempt` is the current index, the fuel argument
is `len(delays) - attempt`; `time.sleep(delays[attempt])` runs only when
`attempt < len(delays) - 1`, i.e. when the fuel after this attempt is
non-zero.  On success the store entry is overwritten; `requires_2fa`
returns immediately; error and exception outcomes record `lastError` and
`retryCount = attempt + 1` under the lock and continue. -/
def refreshGo (auto : ℕ → AttemptOutcome) (nowIso : String) :
    ℕ → TokenData → ℕ → List RefreshEv × TokenData × RefreshSummary
  | _, td, 0 => ([.alertEv], td, .allFailed td.lastError)
  | attempt, td, rem + 1 =>
    match auto attempt with
    | .ok t e =>
      ([.attemptEv (attempt + 1)],
       { token := some t, expiresAt := e, lastError := none,
         lastRefresh := some nowIso, retryCount := 0 },
       .ok t e)
    | .requires2fa =>
      ([.attemptEv (attempt + 1)], { td with lastError := some "Waiting for 2FA" }, .twofaPending)
    | .err m =>
      let td1 := { td with lastError := some m, retryCount := attempt + 1 }
      let sleeps := if rem = 0 then [] else [RefreshEv.sleepEv (delays.getD attempt 0)]
      let rest := refreshGo auto nowIso (attempt + 1) td1 rem
      (RefreshEv.attemptEv (attempt + 1) :: (sleeps ++ rest.1), rest.2)
    | .exn m =>
      let td1 := { td with lastError := some ("Exception: " ++ m), retryCount := attempt + 1 }
      let sleeps := if rem = 0 then [] else [RefreshEv.sleepEv (delays.getD attempt 0)]
      let rest := refreshGo auto nowIso (attempt + 1) td1 rem
      (RefreshEv.attemptEv (attempt + 1) :: (sleeps ++ rest.1), rest.2)

/-- `refresh_token(provider)` for a known provider, starting from store
entry `td`. -/
def refresh_token (auto : ℕ → AttemptOutcome) (nowIso : String) (td : TokenData) :
    List RefreshEv × TokenData × RefreshSummary :=
  refreshGo auto nowIso 0 td delays.length

def sleepsOf (evs : List RefreshEv) : List ℕ :=
  evs.filterMap fun e => match e with | .sleepEv s => some s | _ => none

def attemptsOf (evs : List RefreshEv) : List ℕ :=
  evs.filterMap fun e => match e with | .attemptEv n => some n | _ => none

def alertCount (evs : List RefreshEv) : ℕ :=
  evs.countP fun e => match e with | .alertEv => true | _ => false

/-! ## `get_token`
(`server/scripts/token_service.py`, lines 1075–1101)

The cached-token check runs under `token_lock`; when it fails the lock is
released and `refresh_token` is called.  The refresh outcome is a parameter
(`RefreshSummary`); the returned Boolean records whether a refresh was
triggered. -/

inductive GetTokenOutcome where
  | cachedHit (token : String) (expiresAt : ℤ)
  | freshHit (token : String) (expiresAt : ℤ)
  | pending2fa
  | failed (lastError : Option String)
  deriving DecidableEq, Repr

def get_token (td : TokenData) (nowMs : ℤ) (refreshResult : RefreshSummary) :
    GetTokenOutcome × Bool :=
  if pyTruthyStr td.token && decide (nowMs + bufferMs < td.expiresAt) then
    (.cachedHit (td.token.getD "") td.expiresAt, false)
  else
    (match refreshResult with
     | .ok t e => .freshHit t e
     | .twofaPending => .pending2fa
     | .allFailed e => .failed e,
     true)

/-! ## `proactive_refresh_daemon` — one loop iteration
(`server/scripts/token_service.py`, lines 1108–1137)

For each provider (in source order `["rpr", "mmi"]`), the store entry is
read under the lock and `refresh_token` is called exactly when the token is
truthy, `expiresAt > 0`, and `expiresAt - now_ms <= buffer_ms`. -/

def daemonRefreshCondition (td : TokenData) (nowMs : ℤ) : Bool :=
  pyTruthyStr td.token && decide (0 < td.expiresAt) && decide (td.expiresAt - nowMs ≤ bufferMs)

def daemonIterationRefreshes (store : Provider → TokenData) (nowMs : ℤ) : List Provider :=
  [Provider.rpr, Provider.mmi].filter fun p => daemonRefreshCondition (store p) nowMs

/-! ## `_fill_and_submit_2fa` and `complete_2fa_session`
(`server/scripts/token_service.py`, lines 640–772 and 775–812)

`_fill_and_submit_2fa` fills the code, submits, and then re-runs
`detect_2fa_challenge` on the resulting page: if the challenge is still
present the code was not accepted and the function returns `None`
(lines 729–731).  It also returns `None` when no input field could be
filled or when no token could be captured afterwards.  The environment
below abstracts the browser interaction; `pageAfterSubmit` is the page
state at the challenge re-check, tied to the same `detect2faChallenge`
model. -/

structure TokenResult where
  token : String
  expiresAt : ℤ
  deriving DecidableEq, Repr

structure TwoFaAttemptEnv where
  /-- a 2FA input field was found and filled (lines 668–698) -/
  fillable : Bool
  /-- the page when `detect_2fa_challenge` re-runs after submission (line 729) -/
  pageAfterSubmit : LoginPage
  /-- token captured from intercepted request headers (lines 644–652, 734–739) -/
  capturedToken : Option String
  /-- token found by the local/session-storage probe (lines 743–759) -/
  storageToken : Option String
  /-- the unquoted `api_key` cookie value (lines 761–765) -/
  apiKeyCookie : Option String
  /-- current time in ms, for `expires_at = now + 1h - 5min` (line 770) -/
  nowMs : ℤ

def fillAndSubmit2fa (env : TwoFaAttemptEnv) : Option TokenResult :=
  if !env.fillable then none
  else if detect2faChallenge env.pageAfterSubmit then none
  else
    match env.capturedToken.orElse (fun _ => env.storageToken.orElse fun _ => env.apiKeyCookie) with
    | some t => some { token := t, expiresAt := env.nowMs + 3300000 }
    | none => none

inductive TwoFaResponse where
  | okToken (token : String) (expiresAt : ℤ)
  | errorMsg (msg : String)
  deriving DecidableEq, Repr

/-- `complete_2fa_session(session_id, code)`.  The pending-session map is
abstracted to the list of live session ids; `fill` is the outcome of the
awaited `_fill_and_submit_2fa` call (`.error` when it — or the cleanup
after it — raised).  Returns the surviving session list and the response.
Note the unconditional `del pending_2fa_sessions[session_id]` at line 792
(and, on the exception path, at line 807). -/
def complete2faSession (sessions : List String) (sid : String)
    (fill : Except String (Option TokenResult)) : List String × TwoFaResponse :=
  if !(sessions.contains sid) then
    (sessions, .errorMsg "2FA session not found or expired")
  else
    match fill with
    | .ok (some r) => (sessions.erase sid, .okToken r.token r.expiresAt)
    | .ok none => (sessions.erase sid, .errorMsg "2FA completed but could not capture token")
    | .error e => (sessions.erase sid, .errorMsg ("2FA completion failed: " ++ e))

/-! ## Single-flight analysis of concurrent refreshes

Two threads touch the `tokens` store concurrently: the HTTP handler thread
(`HTTPServer` is single-threaded, so at most one request at a time) and the
proactive-refresh daemon thread.  Each runs the same shape: a locked read
that decides whether to refresh, then — with the lock released — the
`asyncio.run(extract_*_token())` browser session, then a locked write
(`refresh_token`, lines 1021–1047; `get_token`, lines 1077–1093;
daemon, lines 1120–1131).  Exactly the locked operations are atomic
steps; one successful extraction attempt is modelled (retries change
nothing about flight overlap). -/

inductive RefresherPhase where
  | idle
  | willExtract
  | extracting
  | writeBack
  | done
  deriving DecidableEq, Repr

inductive ThreadId where
  | httpThread
  | daemonThread
  deriving DecidableEq, Repr

structure FlightState where
  httpPhase : RefresherPhase
  daemonPhase : RefresherPhase
  store : TokenData
  /-- number of `extract_*_token` browser sessions started so far -/
  sessionsStarted : ℕ
  deriving DecidableEq, Repr

/-- The store entry written by a successful extraction (lines 1031–1037). -/
def refreshedEntry (newTok : String) (newExp : ℤ) : TokenData :=
  { token := some newTok, expiresAt := newExp, lastError := none,
    lastRefresh := some "now", retryCount := 0 }

/-- One atomic step of the HTTP handler running `get_token`:
locked cache check, then begin extraction (a new browser session), the
extraction returning, then the locked store write. -/
def stepHttp (nowMs : ℤ) (newTok : String) (newExp : ℤ) (s : FlightState) : FlightState :=
  match s.httpPhase with
  | .idle =>
    if pyTruthyStr s.store.token && decide (nowMs + bufferMs < s.store.expiresAt) then
      { s with httpPhase := .done }
    else
      { s with httpPhase := .willExtract }
  | .willExtract => { s with httpPhase := .extracting, sessionsStarted := s.sessionsStarted + 1 }
  | .extracting => { s with httpPhase := .writeBack }
  | .writeBack => { s with httpPhase := .done, store := refreshedEntry newTok newExp }
  | .done => s

/-- One atomic step of the daemon loop body for the same provider:
locked expiry check (lines 1120–1129), then the same refresh shape. -/
def stepDaemon (nowMs : ℤ) (newTok : String) (newExp : ℤ) (s : FlightState) : FlightState :=
  match s.daemonPhase with
  | .idle =>
    if daemonRefreshCondition s.store nowMs then
      { s with daemonPhase := .willExtract }
    else
      { s with daemonPhase := .done }
  | .willExtract => { s with daemonPhase := .extracting, sessionsStarted := s.sessionsStarted + 1 }
  | .extracting => { s with daemonPhase := .writeBack }
  | .writeBack => { s with daemonPhase := .done, store := refreshedEntry newTok newExp }
  | .done => s

def stepFlight (nowMs : ℤ) (newTok : String) (newExp : ℤ) (t : ThreadId) (s : FlightState) :
    FlightState :=
  match t with
  | .httpThread => stepHttp nowMs newTok newExp s
  | .daemonThread => stepDaemon nowMs newTok newExp s

def runSchedule (nowMs : ℤ) (newTok : String) (newExp : ℤ) (sched : List ThreadId)
    (s : FlightState) : FlightState :=
  sched.foldl (fun st t => stepFlight nowMs newTok newExp t st) s

/-- How many refreshes (browser sessions) are in flight. -/
def inFlightCount (s : FlightState) : ℕ :=
  (if s.httpPhase = .extracting then 1 else 0) +
    (if s.daemonPhase = .extracting then 1 else 0)

/-- Both threads start before their locked read, with a store entry holding
a token that expires within the refresh buffer (so both the on-demand path
and the daemon path decide to refresh). -/
def nearExpiryInit : FlightState :=
  { httpPhase := .idle, daemonPhase := .idle,
    store := { token := some "tok", expiresAt := 1000, lastError := none,
               lastRefresh := some "earlier", retryCount := 0 },
    sessionsStarted := 0 }

/-! ## `BrowserPool.release`
(`services/mci-scraper/app/services/browser.py`, lines 98–120)

Workers are identified by numerals; `pool` is `self._pool` and `available`
is the FIFO contents of `self._available` (front = next `get()`).  The
environment says which of the fallible browser calls succeed: the cleanup
(`delete_all_cookies` + `get("about:blank")`), `driver.quit()`, and
`self._create_driver()`.  When cleanup raises, the replacement path runs
`quit`, `remove`, `create`, `append`, `put(new)`, `return`; if any of those
raises, the `except` at line 116 only logs, and control falls through to
`await self._available.put(driver)` at line 119, re-queuing the broken
driver. -/

structure BrowserPool where
  pool : List ℕ
  available : List ℕ
  deriving DecidableEq, Repr

structure ReleaseEnv where
  cleanupOk : Bool
  quitOk : Bool
  createOk : Bool
  newDriver : ℕ
  deriving DecidableEq, Repr

def releaseWorker (p : BrowserPool) (d : ℕ) (env : ReleaseEnv) : BrowserPool :=
  if !(p.pool.contains d) then p
  else if env.cleanupOk then { p with available := p.available ++ [d] }
  else if !env.quitOk then { p with available := p.available ++ [d] }
  else if env.createOk then
    { pool := p.pool.erase d ++ [env.newDriver], available := p.available ++ [env.newDriver] }
  else
    { pool := p.pool.erase d, available := p.available ++ [d] }

/-- `total_count` — `len(self._pool)`. -/
def totalCount (p : BrowserPool) : ℕ := p.pool.length

/-! ## Concrete fixtures used by the theorems below -/

/-- A results page carrying a cancellation date, the words "current" and
"status" in its body text, and an amount-due field whose text does not
parse as a float (so `float(...)` raises inside the `try` block). -/
def badAmountCancelPage : MciPage :=
  { bodyText := "Account Status: Current", paidThroughEl := none, nextDueEl := none,
    amountDueEl := some "N/A", policyNumberEl := none, carrierEl := none,
    effectiveEl := none, expirationEl := none, cancellationEl := some "01/01/2024",
    cancelReasonEl := none }

/-- The same page with a well-formed amount-due field. -/
def goodAmountCancelPage : MciPage :=
  { bodyText := "Account Status: Current", paidThroughEl := none, nextDueEl := none,
    amountDueEl := some "$1,245.00", policyNumberEl := none, carrierEl := none,
    effectiveEl := none, expirationEl := none, cancellationEl := some "01/01/2024",
    cancelReasonEl := none }

/-- A login page with no candidate inputs whose body text contains a
curated 2FA keyword. -/
def keywordOnlyPage : LoginPage :=
  { sel := fun _ => none, digitInputs := [],
    bodyText := "We sent a code to your phone" }

/-- A store entry whose token expires 700 seconds after epoch-time zero —
beyond the 600-second refresh buffer when `now = 0`. -/
def freshCacheEntry : TokenData :=
  { token := some "tok", expiresAt := 700000, lastError := none,
    lastRefresh := none, retryCount := 0 }

/-- A 2FA attempt in which the submitted code is not accepted: the
challenge is still detected on the page after submission (its body text
still shows the verification-code prompt). -/
def rejectedCodeEnv : TwoFaAttemptEnv :=
  { fillable := true,
    pageAfterSubmit :=
      { sel := fun _ => none, digitInputs := [],
        bodyText := "Enter the verification code we sent" },
    capturedToken := some "tokentokentokentokentok", storageToken := none,
    apiKeyCookie := none, nowMs := 0 }

end TcdsTriage

namespace TcdsTriage

/-! ## Claim theorems -/

/-- C8 counterexample: `_parse_currency` does not strip all
non-digit/non-decimal-point characters before float parsing.  On
`"2,623.79 USD"` the code removes only the comma (and any dollar signs),
`float("2623.79 USD")` raises, and the result is the fallback `0.0`;
the normalization the claim describes would yield `2623.79`. -/
theorem c8_strip_all_counterexample :
    parseCurrency "2,623.79 USD" = 0 ∧
      specParseCurrency "2,623.79 USD" = mkRat 262379 100 ∧
      parseCurrency "2,623.79 USD" ≠ specParseCurrency "2,623.79 USD" := by
  refine ⟨by decide, by decide, ?_⟩
  decide

/-- C8 (amended): currency parsing removes only commas and dollar signs
before float parsing and returns `0.0` when the remainder is not a valid
float literal; in particular `"$2,623.79"` parses to `2623.79` and a
non-numeric string such as `"N/A"` yields `0.0`. -/
theorem c8_currency_parsing :
    stripCommasDollars "$2,623.79" = "2623.79" ∧
      parseCurrency "$2,623.79" = mkRat 262379 100 ∧
      parseCurrency "N/A" = 0 := by
  refine ⟨by decide, by decide, by decide⟩

/-- C9 counterexample: date parsing is not restricted to `MM/DD/YYYY` form.
`"3/15/2024"` (single-digit month, so not in `MM/DD/YYYY` form) is accepted
by `strptime("%m/%d/%Y")` and yields 2024-03-15 instead of the null field
the claim requires for every non-`MM/DD/YYYY` input. -/
theorem c9_strict_form_counterexample :
    parseDateField (some "3/15/2024") = some ⟨2024, 3, 15⟩ ∧
      specIsMMDDYYYY "3/15/2024" = false := by
  refine ⟨by decide, by decide⟩

/-- C9 (amended): date parsing accepts `%m/%d/%Y` — a one- or two-digit
month and day and a four-digit year forming a valid calendar date:
`"03/15/2024"` yields 2024-03-15, while `"N/A"`, a missing value, and every
other non-matching input yield a null field rather than raising (the
function is total, and any non-null result is a calendar-valid date). -/
theorem c9_date_parsing :
    parseDateField (some "03/15/2024") = some ⟨2024, 3, 15⟩ ∧
      parseDateField (some "N/A") = none ∧
      parseDateField none = none ∧
      ∀ s : String, parseDateField (some s) = none ∨
        ∃ y m d : ℕ, parseDateField (some s) = some ⟨y, m, d⟩ ∧
          1 ≤ m ∧ m ≤ 12 ∧ 1 ≤ d ∧ d ≤ daysInMonth y m ∧ 1 ≤ y := by
  refine ⟨by decide, by decide, rfl, ?_⟩
  intro s
  unfold parseDateField
  by_cases hse : s.isEmpty
  · simp [hse]
  · simp only [hse, if_false]
    unfold pyStrptimeMDY
    cases hsp : splitSlash s.toList with
    | nil => simp
    | cons g1 t1 =>
      cases t1 with
      | nil => simp
      | cons g2 t2 =>
        cases t2 with
        | nil => simp
        | cons g3 t3 =>
          cases t3 with
          | cons g4 t4 => simp
          | nil =>
            by_cases hv : (validMonthStr g1 && validDayStr g2 && validYearStr g3) = true
            · simp only [hv, if_true]
              by_cases hd : (decide (1 ≤ digitsVal g3) &&
                  decide (digitsVal g2 ≤ daysInMonth (digitsVal g3) (digitsVal g1))) = true
              · right
                refine ⟨digitsVal g3, digitsVal g1, digitsVal g2, by simp [hd], ?_⟩
                have h1 : validMonthStr g1 = true := by
                  simp only [Bool.and_eq_true] at hv; exact hv.1.1
                have h2 : validDayStr g2 = true := by
                  simp only [Bool.and_eq_true] at hv; exact hv.1.2
                unfold validMonthStr at h1
                unfold validDayStr at h2
                simp only [Bool.and_eq_true, decide_eq_true_eq] at h1 h2 hd
                exact ⟨h1.1.2, h1.2, h2.1.2, hd.2, hd.1⟩
              · left; simp [hd]
            · left; simp [hv]

/-- C2 counterexample: for an automator that fails on every attempt, the
inter-attempt sleeps of `refresh_token` are 5 s and 15 s only — the third
configured delay, 45 s, is never slept (there is no sleep after the final
attempt), so the claimed backoff schedule 5 s, 15 s, 45 s does not occur. -/
theorem c2_backoff_counterexample :
    sleepsOf (refresh_token (fun _ => .err "Timeout") "t" initialTokenData).1 = [5, 15] ∧
      sleepsOf (refresh_token (fun _ => .err "Timeout") "t" initialTokenData).1 ≠ [5, 15, 45] := by
  refine ⟨by decide, by decide⟩

/-- C2 (amended): a provider whose automator fails on every attempt is tried
exactly 3 times, with delays of 5 s and then 15 s between consecutive
attempts; the failure is recorded in the credential store (`lastError` set
to the last attempt's error, `retryCount = 3`) and exactly one alert is
fired per exhausted run before an error result is returned. -/
theorem c2_retry_backoff_alert (errs : ℕ → String) (nowIso : String) (td : TokenData) :
    attemptsOf (refresh_token (fun n => .err (errs n)) nowIso td).1 = [1, 2, 3] ∧
      sleepsOf (refresh_token (fun n => .err (errs n)) nowIso td).1 = [5, 15] ∧
      alertCount (refresh_token (fun n => .err (errs n)) nowIso td).1 = 1 ∧
      (refresh_token (fun n => .err (errs n)) nowIso td).2.1.lastError = some (errs 2) ∧
      (refresh_token (fun n => .err (errs n)) nowIso td).2.1.retryCount = 3 ∧
      (refresh_token (fun n => .err (errs n)) nowIso td).2.2 = .allFailed (some (errs 2)) := by
  exact ⟨rfl, rfl, rfl, rfl, rfl, rfl⟩

/-- C1 counterexample: refresh is not single-flight.  With a token expiring
inside the refresh buffer, the schedule in which the HTTP caller's
`get_token` and the daemon's loop body each perform their locked check and
then start extraction puts two refreshes for the same provider in flight at
once — the claimed bound of at most one in-flight refresh fails. -/
theorem c1_single_flight_counterexample :
    ¬ ∀ sched : List ThreadId,
        inFlightCount (runSchedule 0 "newTok" 3600000 sched nearExpiryInit) ≤ 1 := by
  intro h
  have h2 := h [.httpThread, .daemonThread, .httpThread, .daemonThread]
  revert h2
  decide

/-- C1 (amended): the store's lock serializes only the cached-token check
and the store write; the browser-driving extraction runs with the lock
released and there is no orchestrator-level single-flight guard, so a
`get_token` caller and the proactive daemon that both observe a token due
for refresh each start their own browser session — two refreshes in flight
simultaneously, two sessions started, for the same provider. -/
theorem c1_concurrent_refreshes :
    inFlightCount (runSchedule 0 "newTok" 3600000
        [.httpThread, .daemonThread, .httpThread, .daemonThread] nearExpiryInit) = 2 ∧
      (runSchedule 0 "newTok" 3600000
        [.httpThread, .daemonThread, .httpThread, .daemonThread] nearExpiryInit).sessionsStarted
        = 2 := by
  refine ⟨by decide, by decide⟩

end TcdsTriage

namespace TcdsTriage

/-- C10: in each daemon iteration, a provider is refreshed exactly when its
stored token is truthy, its `expiresAt` is positive, and the remaining time
to expiry is at most the refresh buffer; in particular a provider whose
token is `None` is never refreshed by the background loop. -/
theorem c10_daemon_refresh_condition (store : Provider → TokenData) (nowMs : ℤ) (p : Provider) :
    (p ∈ daemonIterationRefreshes store nowMs ↔
      (pyTruthyStr (store p).token = true ∧ 0 < (store p).expiresAt ∧
        (store p).expiresAt - nowMs ≤ bufferMs)) ∧
    ((store p).token = none → p ∉ daemonIterationRefreshes store nowMs) := by
  have hp : p ∈ [Provider.rpr, Provider.mmi] := by cases p <;> simp
  constructor
  · rw [daemonIterationRefreshes, List.mem_filter]
    simp [hp, daemonRefreshCondition, Bool.and_eq_true, decide_eq_true_eq, and_assoc]
  · intro htok hmem
    rw [daemonIterationRefreshes, List.mem_filter] at hmem
    simp [daemonRefreshCondition, htok, pyTruthyStr] at hmem

/-- C5: `get_token` returns the cached token (with `cached=True` and no
refresh triggered) exactly when the stored token is non-null and its
`expiresAt` exceeds `now` plus the 600-second buffer; otherwise a refresh
is triggered; and a cached hit always carries the stored expiry, which is
strictly in the future.  (The hypothesis excludes the empty-string token,
which the store never holds: every extraction path returns a non-empty
token or fails.) -/
theorem c5_get_token_cache_policy (td : TokenData) (nowMs : ℤ) (r : RefreshSummary)
    (hne : td.token ≠ some "") :
    ((∃ t e, (get_token td nowMs r).1 = .cachedHit t e) ↔
      (td.token.isSome = true ∧ nowMs + bufferMs < td.expiresAt)) ∧
    ((get_token td nowMs r).2 = true ↔
      ¬ (td.token.isSome = true ∧ nowMs + bufferMs < td.expiresAt)) ∧
    (∀ t e, (get_token td nowMs r).1 = .cachedHit t e →
      e = td.expiresAt ∧ nowMs < e) := by
  have htr : pyTruthyStr td.token = td.token.isSome := by
    cases h : td.token with
    | none => rfl
    | some s =>
      have hs : s ≠ "" := by
        intro hrfl
        exact hne (by rw [h, hrfl])
      have hie : s.isEmpty = false := by
        cases h' : s.isEmpty with
        | false => rfl
        | true => exact absurd ((String.isEmpty_iff s).mp h') hs
      simp [pyTruthyStr, hie]
  by_cases hcond : (pyTruthyStr td.token && decide (nowMs + bufferMs < td.expiresAt)) = true
  · have hc : td.token.isSome = true ∧ nowMs + bufferMs < td.expiresAt := by
      rw [htr] at hcond
      simpa [Bool.and_eq_true, decide_eq_true_eq] using hcond
    have hget : get_token td nowMs r = (.cachedHit (td.token.getD "") td.expiresAt, false) := by
      unfold get_token
      rw [if_pos hcond]
    refine ⟨?_, ?_, ?_⟩
    · rw [hget]
      exact ⟨fun _ => hc, fun _ => ⟨td.token.getD "", td.expiresAt, rfl⟩⟩
    · rw [hget]
      simp [hc]
    · intro t e hhit
      rw [hget] at hhit
      have he : e = td.expiresAt := by
        cases hhit
        rfl
      refine ⟨he, ?_⟩
      have hb : (0 : ℤ) ≤ bufferMs := by decide
      have := hc.2
      omega
  · have hc : ¬ (td.token.isSome = true ∧ nowMs + bufferMs < td.expiresAt) := by
      rw [htr] at hcond
      simpa [Bool.and_eq_true, decide_eq_true_eq] using hcond
    have hget : (get_token td nowMs r).2 = true ∧
        ∀ t e, (get_token td nowMs r).1 ≠ GetTokenOutcome.cachedHit t e := by
      unfold get_token
      rw [if_neg hcond]
      refine ⟨rfl, ?_⟩
      intro t e
      cases r <;> simp
    refine ⟨?_, ?_, ?_⟩
    · constructor
      · rintro ⟨t, e, hhit⟩
        exact absurd hhit (hget.2 t e)
      · intro h
        exact absurd h hc
    · simp [hget.1, hc]
    · intro t e hhit
      exact absurd hhit (hget.2 t e)

/-- C5 witness: a store entry whose token expires 700 s from now (beyond
the 600 s buffer) is served from cache with its stored expiry. -/
theorem c5_get_token_cache_policy_witness :
    ((∃ t e, (get_token freshCacheEntry 0 (.allFailed none)).1 = .cachedHit t e) ↔
      (freshCacheEntry.token.isSome = true ∧ (0 : ℤ) + bufferMs < freshCacheEntry.expiresAt)) ∧
    ((get_token freshCacheEntry 0 (.allFailed none)).2 = true ↔
      ¬ (freshCacheEntry.token.isSome = true ∧
          (0 : ℤ) + bufferMs < freshCacheEntry.expiresAt)) ∧
    (∀ t e, (get_token freshCacheEntry 0 (.allFailed none)).1 = .cachedHit t e →
      e = freshCacheEntry.expiresAt ∧ (0 : ℤ) < e) :=
  c5_get_token_cache_policy freshCacheEntry 0 (.allFailed none) (by decide)

/-- C6 counterexample: a release whose cleanup throws and whose replacement
also throws (after `driver.quit()` and the removal succeeded but
`_create_driver()` raised) shrinks the pool from one driver to zero and
re-queues the broken driver, so pool size is not unchanged by every release
operation. -/
theorem c6_release_size_counterexample :
    totalCount (⟨[7], []⟩ : BrowserPool) = 1 ∧
      totalCount (releaseWorker ⟨[7], []⟩ 7 ⟨false, true, false, 9⟩) = 0 ∧
      (releaseWorker ⟨[7], []⟩ 7 ⟨false, true, false, 9⟩).available = [7] := by
  refine ⟨by decide, by decide, by decide⟩

/-- C6 (amended): for a pool-owned worker, a release whose cleanup succeeds
puts that same worker back in the available queue and leaves the pool
unchanged; a release whose cleanup throws but whose quit-and-replace
succeeds keeps the total size unchanged and queues the fresh worker.  (When
the replacement itself throws, the broken worker is re-queued and the pool
can shrink — see the counterexample.) -/
theorem c6_release_behavior (p : BrowserPool) (d : ℕ) (env : ReleaseEnv) (hd : d ∈ p.pool) :
    (env.cleanupOk = true →
      releaseWorker p d env = { p with available := p.available ++ [d] } ∧
        d ∈ (releaseWorker p d env).available ∧
        totalCount (releaseWorker p d env) = totalCount p) ∧
    (env.cleanupOk = false → env.quitOk = true → env.createOk = true →
      totalCount (releaseWorker p d env) = totalCount p ∧
        env.newDriver ∈ (releaseWorker p d env).available) := by
  constructor
  · intro h1
    refine ⟨?_, ?_, ?_⟩ <;> simp [releaseWorker, hd, h1, totalCount]
  · intro h1 h2 h3
    have hlen : (p.pool.erase d).length = p.pool.length - 1 :=
      List.length_erase_of_mem hd
    have hpos : 0 < p.pool.length := List.length_pos_of_mem hd
    have hres : releaseWorker p d env =
        { pool := p.pool.erase d ++ [env.newDriver],
          available := p.available ++ [env.newDriver] } := by
      simp [releaseWorker, hd, h1, h2, h3]
    constructor
    · rw [hres]
      show (p.pool.erase d ++ [env.newDriver]).length = p.pool.length
      rw [List.length_append, hlen]
      simp
      omega
    · rw [hres]
      simp

/-- C6 witness: with a two-driver pool, a clean release re-queues the same
driver with the pool intact, and a cleanup-failure release with a
successful replacement keeps the size at two and queues the new driver. -/
theorem c6_release_behavior_witness :
    ((true = true →
      releaseWorker ⟨[7, 8], [8]⟩ 7 ⟨true, true, true, 9⟩ =
          { pool := [7, 8], available := [8, 7] } ∧
        7 ∈ (releaseWorker ⟨[7, 8], [8]⟩ 7 ⟨true, true, true, 9⟩).available ∧
        totalCount (releaseWorker ⟨[7, 8], [8]⟩ 7 ⟨true, true, true, 9⟩) =
          totalCount ⟨[7, 8], [8]⟩) ∧
    (true = false → true = true → true = true →
      totalCount (releaseWorker ⟨[7, 8], [8]⟩ 7 ⟨true, true, true, 9⟩) =
          totalCount ⟨[7, 8], [8]⟩ ∧
        9 ∈ (releaseWorker ⟨[7, 8], [8]⟩ 7 ⟨true, true, true, 9⟩).available)) :=
  c6_release_behavior ⟨[7, 8], [8]⟩ 7 ⟨true, true, true, 9⟩ (by decide)

/-- C3 counterexample: resuming a pending session with a code that is not
accepted (the 2FA challenge is still detected after submission, so
`_fill_and_submit_2fa` returns `None`) yields the error
`"2FA completed but could not capture token"` — not
`"2FA code was not accepted"` — and the session is removed from the
pending-session map (and its browser closed), not kept resumable. -/
theorem c3_wrong_code_counterexample :
    detect2faChallenge rejectedCodeEnv.pageAfterSubmit = true ∧
      fillAndSubmit2fa rejectedCodeEnv = none ∧
      complete2faSession ["s1"] "s1" (.ok (fillAndSubmit2fa rejectedCodeEnv)) =
        ([], .errorMsg "2FA completed but could not capture token") ∧
      (complete2faSession ["s1"] "s1" (.ok (fillAndSubmit2fa rejectedCodeEnv))).2 ≠
        .errorMsg "2FA code was not accepted" ∧
      "s1" ∉ (complete2faSession ["s1"] "s1" (.ok (fillAndSubmit2fa rejectedCodeEnv))).1 := by
  refine ⟨by decide, by decide, by decide, by decide, by decide⟩

/-- C3 (amended): when the submitted code is not accepted (the challenge is
still detected after submission), `_fill_and_submit_2fa` returns `None` and
`complete_2fa_session` always deletes the pending session, returning the
error `"2FA completed but could not capture token"`. -/
theorem c3_wrong_code_session (sessions : List String) (sid : String) (env : TwoFaAttemptEnv)
    (hmem : sid ∈ sessions) (hchal : detect2faChallenge env.pageAfterSubmit = true) :
    fillAndSubmit2fa env = none ∧
      complete2faSession sessions sid (.ok (fillAndSubmit2fa env)) =
        (sessions.erase sid, .errorMsg "2FA completed but could not capture token") := by
  have hfill : fillAndSubmit2fa env = none := by
    cases hf : env.fillable <;> simp [fillAndSubmit2fa, hf, hchal]
  refine ⟨hfill, ?_⟩
  rw [hfill]
  simp [complete2faSession, hmem]

/-- C3 witness: a concrete pending map with two sessions, resumed with a
rejected code, loses the resumed session. -/
theorem c3_wrong_code_session_witness :
    fillAndSubmit2fa rejectedCodeEnv = none ∧
      complete2faSession ["s1", "s2"] "s2" (.ok (fillAndSubmit2fa rejectedCodeEnv)) =
        (["s1", "s2"].erase "s2", .errorMsg "2FA completed but could not capture token") :=
  c3_wrong_code_session ["s1", "s2"] "s2" rejectedCodeEnv (by decide) (by decide)

end TcdsTriage

namespace TcdsTriage

/-- C4 counterexample: a results page that carries a cancellation date is
not always classified `lapsed`.  When the page's amount-due text does not
parse as a float, `float(...)` raises inside the `try` block and the
cancellation override is skipped, so a page whose body text contains
"current" and "status" is classified `current` despite its cancellation
date. -/
theorem c4_cancellation_ignored_counterexample :
    badAmountCancelPage.cancellationEl.isSome = true ∧
      pyIn "current" (pyLower badAmountCancelPage.bodyText) = true ∧
      pyIn "status" (pyLower badAmountCancelPage.bodyText) = true ∧
      (extract_payment_data badAmountCancelPage).paymentStatus = "current" ∧
      (extract_payment_data badAmountCancelPage).paymentStatus ≠ "lapsed" := by
  refine ⟨by decide, by decide, by decide, by decide, by decide⟩

/-- C4 (amended): provided no field extraction raises before the
cancellation lookup (the amount-due text, when present, parses as a
float), a page with a cancellation date is classified `lapsed` — taking
priority over every keyword rule, including "current"+"status" — and a
page without one is decided by the first matching rule of the ladder:
current, then late, then grace_period, then lapsed keywords, else unknown.
When the amount-due text does not parse, the exception skips the override
and the keyword ladder's answer stands. -/
theorem c4_cancellation_priority (page : MciPage) :
    ((page.amountDueEl = none ∨
        ∃ t, page.amountDueEl = some t ∧ pyFloatParses (cleanAmount t) = true) →
      (extract_payment_data page).paymentStatus =
        (if page.cancellationEl.isSome then "lapsed" else ladderStatus page.bodyText)) ∧
    ((∃ t, page.amountDueEl = some t ∧ pyFloatParses (cleanAmount t) = false) →
      (extract_payment_data page).paymentStatus = ladderStatus page.bodyText) ∧
    (ladderStatus page.bodyText =
      (let pl := pyLower page.bodyText
       if pyIn "current" pl && pyIn "status" pl then "current"
       else if pyIn "past due" pl || pyIn "late" pl then "late"
       else if pyIn "grace period" pl then "grace_period"
       else if pyIn "lapsed" pl || pyIn "cancelled" pl || pyIn "canceled" pl then "lapsed"
       else "unknown")) := by
  refine ⟨?_, ?_, rfl⟩
  · rintro (hnone | ⟨t, ht, hp⟩)
    · simp [extract_payment_data, hnone]
    · simp [extract_payment_data, ht, hp]
  · rintro ⟨t, ht, hp⟩
    simp [extract_payment_data, ht, hp]

/-- C4 witness: with a parseable amount, the cancellation date wins over
the "current"+"status" keywords; with an unparseable amount, the same page
falls back to the ladder's `current`. -/
theorem c4_cancellation_priority_witness :
    (extract_payment_data goodAmountCancelPage).paymentStatus = "lapsed" ∧
      (extract_payment_data badAmountCancelPage).paymentStatus = "current" := by
  constructor
  · have h := (c4_cancellation_priority goodAmountCancelPage).1
      (Or.inr ⟨"$1,245.00", rfl, by decide⟩)
    rw [h]
    decide
  · have h := (c4_cancellation_priority badAmountCancelPage).2.1 ⟨"N/A", rfl, by decide⟩
    rw [h]
    decide

/-- One selector-loop iteration succeeds exactly on a present, visible
element not identified as email/password by type or name. -/
theorem selectorHit_eq_true (page : LoginPage) (s : String) :
    selectorHit page s = true ↔
      ∃ el, page.sel s = some el ∧ el.visible = true ∧
        typeNotEmailPassword el.inputType = true ∧
        nameNotEmailPassword el.inputName = true := by
  unfold selectorHit
  cases h : page.sel s with
  | none => simp
  | some el => simp [Bool.and_eq_true, and_assoc]

/-- C7: the 2FA detector reports a challenge exactly when some selector in
the curated list matches a visible input whose type and name do not
identify it as an email or password field, or at least 4 visible
single-character digit inputs (excluding email/password types) exist, or a
curated keyword occurs in the lower-cased body text; in particular a page
whose only candidate inputs are typed or named email/password and whose
body text has no such keyword is reported as having no challenge. -/
theorem c7_detector_characterization (page : LoginPage) :
    detect2faChallenge page = true ↔
      ((∃ s ∈ twofaSelectors, ∃ el, page.sel s = some el ∧ el.visible = true ∧
          typeNotEmailPassword el.inputType = true ∧
          nameNotEmailPassword el.inputName = true) ∨
        4 ≤ visibleDigitCount page ∨
        ∃ k ∈ twofaKeywords, pyIn k (pyLower page.bodyText) = true) := by
  unfold detect2faChallenge
  simp only [Bool.or_eq_true, List.any_eq_true, selectorHit_eq_true, decide_eq_true_eq]
  exact or_assoc

end TcdsTriage

namespace TcdsTriage

/-- C2 witness: the always-timing-out automator instantiates the
retry/backoff/alert theorem. -/
theorem c2_retry_backoff_alert_witness :
    attemptsOf (refresh_token (fun _ => .err "Timeout") "2025-01-01T00:00:00"
        initialTokenData).1 = [1, 2, 3] ∧
      sleepsOf (refresh_token (fun _ => .err "Timeout") "2025-01-01T00:00:00"
        initialTokenData).1 = [5, 15] ∧
      alertCount (refresh_token (fun _ => .err "Timeout") "2025-01-01T00:00:00"
        initialTokenData).1 = 1 ∧
      (refresh_token (fun _ => .err "Timeout") "2025-01-01T00:00:00"
        initialTokenData).2.1.lastError = some "Timeout" ∧
      (refresh_token (fun _ => .err "Timeout") "2025-01-01T00:00:00"
        initialTokenData).2.1.retryCount = 3 ∧
      (refresh_token (fun _ => .err "Timeout") "2025-01-01T00:00:00"
        initialTokenData).2.2 = .allFailed (some "Timeout") :=
  c2_retry_backoff_alert (fun _ => "Timeout") "2025-01-01T00:00:00" initialTokenData

/-- C7 witness: the characterization instantiated at a page whose only 2FA
sign is a keyword in the body text. -/
theorem c7_detector_characterization_witness :
    detect2faChallenge keywordOnlyPage = true ↔
      ((∃ s ∈ twofaSelectors, ∃ el, keywordOnlyPage.sel s = some el ∧ el.visible = true ∧
          typeNotEmailPassword el.inputType = true ∧
          nameNotEmailPassword el.inputName = true) ∨
        4 ≤ visibleDigitCount keywordOnlyPage ∨
        ∃ k ∈ twofaKeywords, pyIn k (pyLower keywordOnlyPage.bodyText) = true) :=
  c7_detector_characterization keywordOnlyPage

/-- C10 witness: the daemon condition instantiated at a store whose token
expires within the buffer. -/
theorem c10_daemon_refresh_condition_witness :
    (Provider.mmi ∈ daemonIterationRefreshes (fun _ => nearExpiryInit.store) 0 ↔
      (pyTruthyStr nearExpiryInit.store.token = true ∧ 0 < nearExpiryInit.store.expiresAt ∧
        nearExpiryInit.store.expiresAt - 0 ≤ bufferMs)) ∧
    (nearExpiryInit.store.token = none →
      Provider.mmi ∉ daemonIterationRefreshes (fun _ => nearExpiryInit.store) 0) :=
  c10_daemon_refresh_condition (fun _ => nearExpiryInit.store) 0 Provider.mmi

end TcdsTriage
